import Mathlib

/-!
Shallow embedding of the BLE GATT server in
src/esp32_ble/Bluedroid_GATT_Server/main/main.c (BLE_SyncSuite).

The C program is a Bluedroid GATT server: global mutable state (the
variables at the top of main.c), a GAP event handler, a GATTS event
handler, and a periodic notify task.  Each handler is embedded as a pure
function from the state and the incoming event to the new state together
with the list of calls it issues to the BLE stack / LED strip (the
`Action` list).  Machine integers are `Nat` with explicit `% 2 ^ w`
where overflow matters (the `uint32_t` sequence counter); `uint8_t`
casts are `% 256`.
-/

set_option autoImplicit false

namespace BleSyncSuite

/-- SENSOR_PAYLOAD_LEN in main.c: seq(4) + t_us(8). -/
def SENSOR_PAYLOAD_LEN : Nat := 12

/-- LED_PULSE_MS in main.c. -/
def LED_PULSE_MS : Nat := 250

/-- SENSOR_NUM_HANDLE in main.c. -/
def SENSOR_NUM_HANDLE : Nat := 6

/-- SENSOR_SVC_UUID in main.c (0x181A). -/
def SENSOR_SVC_UUID : Nat := 0x181A

/-- ADV_CONFIG_FLAG in main.c (1 << 0). -/
def ADV_CONFIG_FLAG : Nat := 1

/-- SCAN_RSP_CONFIG_FLAG in main.c (1 << 1). -/
def SCAN_RSP_CONFIG_FLAG : Nat := 2

/-- ESP_GATT_IF_NONE from the ESP-IDF headers (0xff), the initial value of
`g_gatts_if`. -/
def ESP_GATT_IF_NONE : Nat := 0xff

/-- ESP_GATT_OK status code (0). -/
def ESP_GATT_OK : Nat := 0

/-- The program's global mutable state (the `static` variables of main.c).
The field `connected` is ghost environment state, not a program variable:
it records whether a BLE link currently exists (toggled by the connect and
disconnect events), so that claims that speak of "a connection exists" can
be stated.  The program itself never tracks this; its `g_conn_id` is set on
connect and never cleared. -/
structure BleState where
  adv_config_done : Nat
  sensor_ready : Bool
  notify_enabled : Bool
  g_gatts_if : Nat
  g_conn_id : Nat
  g_service_handle : Nat
  g_char_handle : Nat
  g_cccd_handle : Nat
  sensor_value : List Nat
  seq : Nat
  strip : Bool
  connected : Bool
deriving Repr, DecidableEq

/-- Initial state after `app_main` has run `led_init_rgb` (so `strip` is
non-null) and before any callback fires: the initializers of main.c's
globals, with the notify task's local `seq = 0`. -/
def initState : BleState :=
  { adv_config_done := 0
    sensor_ready := false
    notify_enabled := false
    g_gatts_if := ESP_GATT_IF_NONE
    g_conn_id := 0xFFFF
    g_service_handle := 0
    g_char_handle := 0
    g_cccd_handle := 0
    sensor_value := List.replicate SENSOR_PAYLOAD_LEN 0
    seq := 0
    strip := true
    connected := false }

/-- Calls the program issues to the BLE stack and the LED strip. -/
inductive Action where
  | configAdvData
  | createService (uuid16 numHandle : Nat)
  | startService (handle : Nat)
  | addChar (serviceHandle : Nat)
  | addCharDescr (serviceHandle : Nat)
  | startAdvertising
  | sendResponse (connId transId status : Nat) (rsp : Option (Nat × List Nat))
  | setAttrValue (handle : Nat) (value : List Nat)
  | sendNotify (connId handle : Nat) (value : List Nat)
  | ledSet (isOn : Bool)
  | delay (ms : Nat)
deriving Repr, DecidableEq

/-- GATTS events dispatched to `gatts_event_handler` (the cases the switch
handles; `other` stands for every event the default branch ignores). -/
inductive GattsEvent where
  | reg (status appId : Nat)
  | create (status serviceHandle : Nat)
  | addChar (status attrHandle : Nat)
  | addCharDescr (status attrHandle : Nat)
  | read (handle connId transId : Nat)
  | write (handle connId transId : Nat) (value : List Nat) (needRsp : Bool)
  | connect (connId : Nat)
  | disconnect (reason : Nat)
  | other
deriving Repr, DecidableEq

/-- GAP events dispatched to `gap_event_handler`. -/
inductive GapEvent where
  | advDataSetComplete (status : Nat)
  | scanRspDataSetComplete (status : Nat)
  | advStartComplete (status : Nat)
  | other
deriving Repr, DecidableEq

/-- Return codes of the synchronous stack calls whose result the handlers
branch on.  Only `esp_ble_gap_config_adv_data` affects control flow
(a non-zero return in the REG branch breaks before creating the service);
the returns of `esp_ble_gatts_add_char` / `..._add_char_descr` are only
logged. -/
structure Env where
  configAdvRet : Nat
deriving Repr, DecidableEq

/-- `write_rsp_if_needed` in main.c: respond ESP_GATT_OK with a NULL
response iff the write needs a response. -/
def write_rsp_if_needed (needRsp : Bool) (connId transId : Nat) : List Action :=
  if needRsp then [Action.sendResponse connId transId ESP_GATT_OK none] else []

/-- `led_set_green` in main.c: a no-op when the strip handle is null. -/
def led_set_green (strip : Bool) (isOn : Bool) : List Action :=
  if strip then [Action.ledSet isOn] else []

/-- Little-endian payload build of main.c lines 181-193:
`[seq:u32 LE][t_us:u64 LE]`, each byte a `(uint8_t)` cast of a right
shift. -/
def encodePayload (seq t_us : Nat) : List Nat :=
  [ seq % 256, (seq >>> 8) % 256, (seq >>> 16) % 256, (seq >>> 24) % 256,
    t_us % 256, (t_us >>> 8) % 256, (t_us >>> 16) % 256, (t_us >>> 24) % 256,
    (t_us >>> 32) % 256, (t_us >>> 40) % 256, (t_us >>> 48) % 256,
    (t_us >>> 56) % 256 ]

/-- Little-endian byte-list reading (spec wire format, §6: the decoder is
the mathematical inverse reading of `u32 sequence || u64 timestamp`). -/
def leBytesToNat (bs : List Nat) : Nat :=
  bs.foldr (fun b acc => b + 256 * acc) 0

/-- Decode the sequence field: first 4 bytes, little-endian. -/
def decodeSeq (p : List Nat) : Nat :=
  leBytesToNat (p.take 4)

/-- Decode the timestamp field: bytes 4..11, little-endian. -/
def decodeTimestamp (p : List Nat) : Nat :=
  leBytesToNat ((p.drop 4).take 8)

/-- One iteration of the while-loop body of `sensor_notify_task` after the
period wait, specialised to one tick: `t_us` is the value read from
`esp_timer_get_time`, `sendOk` tells whether `esp_ble_gatts_send_indicate`
returned ESP_OK.  The task-local `uint32_t seq` lives in the state; its
increment wraps at `2 ^ 32`. -/
def sensor_notify_task_tick (s : BleState) (t_us : Nat) (sendOk : Bool) :
    BleState × List Action :=
  if !s.sensor_ready || !s.notify_enabled || s.g_gatts_if == ESP_GATT_IF_NONE then
    (s, [])
  else
    let payload := encodePayload s.seq t_us
    let s1 := { s with sensor_value := payload }
    let sendActs := [Action.setAttrValue s1.g_char_handle payload,
                     Action.sendNotify s1.g_conn_id s1.g_char_handle payload]
    let fb :=
      if sendOk then
        led_set_green s1.strip true ++ [Action.delay LED_PULSE_MS] ++
          led_set_green s1.strip false
      else []
    ({ s1 with seq := (s1.seq + 1) % 2 ^ 32 }, sendActs ++ fb)

/-- `gap_event_handler` in main.c. -/
def gap_event_handler (s : BleState) (e : GapEvent) : BleState × List Action :=
  match e with
  | GapEvent.advDataSetComplete _ =>
      let s1 := { s with adv_config_done := s.adv_config_done &&& 0xFE }
      if s1.adv_config_done == 0 then (s1, [Action.startAdvertising]) else (s1, [])
  | GapEvent.scanRspDataSetComplete _ =>
      let s1 := { s with adv_config_done := s.adv_config_done &&& 0xFD }
      if s1.adv_config_done == 0 then (s1, [Action.startAdvertising]) else (s1, [])
  | GapEvent.advStartComplete _ => (s, [])
  | GapEvent.other => (s, [])

/-- `gatts_event_handler` in main.c.  `gattsIf` is the handler's
`gatts_if` parameter; `env` carries the return code of the synchronous
`esp_ble_gap_config_adv_data` call made in the REG branch. -/
def gatts_event_handler (s : BleState) (gattsIf : Nat) (e : GattsEvent)
    (env : Env) : BleState × List Action :=
  match e with
  | GattsEvent.reg _status _appId =>
      let s1 := { s with g_gatts_if := gattsIf, adv_config_done := ADV_CONFIG_FLAG }
      if env.configAdvRet != 0 then
        (s1, [Action.configAdvData])
      else
        (s1, [Action.configAdvData,
              Action.createService SENSOR_SVC_UUID SENSOR_NUM_HANDLE])
  | GattsEvent.create _status serviceHandle =>
      let s1 := { s with g_service_handle := serviceHandle }
      (s1, [Action.startService serviceHandle, Action.addChar serviceHandle])
  | GattsEvent.addChar _status attrHandle =>
      let s1 := { s with g_char_handle := attrHandle }
      (s1, [Action.addCharDescr s1.g_service_handle])
  | GattsEvent.addCharDescr _status attrHandle =>
      ({ s with g_cccd_handle := attrHandle, sensor_ready := true }, [])
  | GattsEvent.read handle connId transId =>
      (s, [Action.sendResponse connId transId ESP_GATT_OK
             (some (handle, s.sensor_value))])
  | GattsEvent.write handle connId transId value needRsp =>
      let s1 :=
        if handle == s.g_cccd_handle && value.length == 2 then
          let cccd := (value.getD 1 0) <<< 8 ||| value.getD 0 0
          if cccd == 0x0001 then { s with notify_enabled := true }
          else if cccd == 0x0000 then { s with notify_enabled := false }
          else s
        else s
      (s1, write_rsp_if_needed needRsp connId transId)
  | GattsEvent.connect connId =>
      ({ s with g_conn_id := connId, notify_enabled := false, connected := true }, [])
  | GattsEvent.disconnect _reason =>
      let s1 := { s with notify_enabled := false, connected := false }
      let acts := [Action.startAdvertising]
      let acts1 := if s1.strip then acts ++ [Action.ledSet false] else acts
      (s1, acts1)
  | GattsEvent.other => (s, [])

/-- A step of the whole system: either callback fires, or the notify task
completes one tick. -/
inductive Label where
  | gatts (gattsIf : Nat) (e : GattsEvent) (env : Env)
  | gap (e : GapEvent)
  | tick (t_us : Nat) (sendOk : Bool)
deriving Repr, DecidableEq

/-- Dispatch one label. -/
def step (s : BleState) (l : Label) : BleState × List Action :=
  match l with
  | Label.gatts gi e env => gatts_event_handler s gi e env
  | Label.gap e => gap_event_handler s e
  | Label.tick t ok => sensor_notify_task_tick s t ok

/-- Environment well-formedness of a step: the BLE stack delivers a write
request only while a link exists, and a registration completion carries a
real interface (never ESP_GATT_IF_NONE). -/
def WfLabel (s : BleState) : Label → Prop
  | Label.gatts gi e _ =>
      match e with
      | GattsEvent.write _ _ _ _ _ => s.connected = true
      | GattsEvent.reg _ _ => gi ≠ ESP_GATT_IF_NONE
      | _ => True
  | _ => True

/-- States reachable from the initial state by well-formed steps. -/
inductive Reachable : BleState → Prop where
  | init : Reachable initState
  | next (s : BleState) (l : Label) : Reachable s → WfLabel s l →
      Reachable (step s l).1

/-- Run a label list from a state (used to build concrete reachable
states). -/
def run (s : BleState) (ls : List Label) : BleState :=
  ls.foldl (fun s1 l => (step s1 l).1) s

/-- Invariant tying the ghost link state to the program state: while no
link exists, notifications are disabled (a CCCD write is the only way to
enable them and writes arrive only on a live link); the value buffer
always holds 12 bytes; the counter is a `uint32_t`. -/
def StateInv (s : BleState) : Prop :=
  (s.connected = false → s.notify_enabled = false) ∧
  s.sensor_value.length = SENSOR_PAYLOAD_LEN ∧
  s.seq < 2 ^ 32

/-- An `Env` where the synchronous advertising-config call succeeds. -/
def env0 : Env := { configAdvRet := 0 }

/-- A state reached after registration (interface 3) and a connect with
connection id 5. -/
def connectedState : BleState :=
  run initState [Label.gatts 3 (GattsEvent.reg 0 0) env0,
                 Label.gatts 3 (GattsEvent.connect 5) env0]

/-- A state reached after registration, service creation (handle 40) and
characteristic add (handle 42); the descriptor is not yet added, so
`sensor_ready` is still false. -/
def preReadyState : BleState :=
  run initState [Label.gatts 3 (GattsEvent.reg 0 0) env0,
                 Label.gatts 3 (GattsEvent.create 0 40) env0,
                 Label.gatts 3 (GattsEvent.addChar 0 42) env0]

/-- A fully set-up, connected, subscribed state (used to exercise ticks
that pass the gating check). -/
def readyState : BleState :=
  { initState with
    sensor_ready := true
    notify_enabled := true
    g_gatts_if := 3
    g_conn_id := 0
    g_service_handle := 40
    g_char_handle := 42
    g_cccd_handle := 44
    connected := true }

/-- `readyState` with the sequence counter at the `uint32_t` maximum. -/
def wrapState : BleState :=
  { readyState with seq := 2 ^ 32 - 1 }

/-- Does this label set `sensor_ready` (i.e. is it a descriptor-add
completion)? -/
def isAddCharDescr : Label → Bool
  | Label.gatts _ (GattsEvent.addCharDescr _ _) _ => true
  | _ => false

/-- The interface a label writes into `g_gatts_if`, when it is a
registration completion. -/
def regIfOf : Label → Option Nat
  | Label.gatts gi (GattsEvent.reg _ _) _ => some gi
  | _ => none

theorem stateInv_init : StateInv initState := by
  refine ⟨fun _ => rfl, rfl, ?_⟩
  decide

theorem encodePayload_length (seq t : Nat) : (encodePayload seq t).length = 12 := rfl

theorem stateInv_step (s : BleState) (l : Label) (hs : StateInv s)
    (hl : WfLabel s l) : StateInv (step s l).1 := by
  obtain ⟨h1, h2, h3⟩ := hs
  cases l with
  | gatts gi e env =>
      cases e with
      | reg status appId =>
          simp only [step, gatts_event_handler]
          split <;> exact ⟨h1, h2, h3⟩
      | create status serviceHandle => exact ⟨h1, h2, h3⟩
      | addChar status attrHandle => exact ⟨h1, h2, h3⟩
      | addCharDescr status attrHandle => exact ⟨h1, h2, h3⟩
      | read handle connId transId => exact ⟨h1, h2, h3⟩
      | write handle connId transId value needRsp =>
          simp only [WfLabel] at hl
          simp only [step, gatts_event_handler]
          split
          · split
            · exact ⟨fun hc => by simp_all, h2, h3⟩
            · split
              · exact ⟨fun _ => rfl, h2, h3⟩
              · exact ⟨h1, h2, h3⟩
          · exact ⟨h1, h2, h3⟩
      | connect connId =>
          simp only [step, gatts_event_handler]
          exact ⟨fun _ => rfl, h2, h3⟩
      | disconnect reason =>
          simp only [step, gatts_event_handler]
          exact ⟨fun _ => rfl, h2, h3⟩
      | other => exact ⟨h1, h2, h3⟩
  | gap e =>
      cases e with
      | advDataSetComplete status =>
          simp only [step, gap_event_handler]
          split <;> exact ⟨h1, h2, h3⟩
      | scanRspDataSetComplete status =>
          simp only [step, gap_event_handler]
          split <;> exact ⟨h1, h2, h3⟩
      | advStartComplete status => exact ⟨h1, h2, h3⟩
      | other => exact ⟨h1, h2, h3⟩
  | tick t ok =>
      simp only [step, sensor_notify_task_tick]
      split
      · exact ⟨h1, h2, h3⟩
      · refine ⟨h1, encodePayload_length _ _, ?_⟩
        exact Nat.mod_lt _ (by decide)

theorem reachable_inv (s : BleState) (hs : Reachable s) : StateInv s := by
  induction hs with
  | init => exact stateInv_init
  | next s1 l _ hl ih => exact stateInv_step s1 l ih hl

theorem decodeSeq_encodePayload (seq t : Nat) (h : seq < 2 ^ 32) :
    decodeSeq (encodePayload seq t) = seq := by
  have e : decodeSeq (encodePayload seq t) =
      seq % 256 + 256 * ((seq >>> 8) % 256 + 256 * ((seq >>> 16) % 256 +
        256 * ((seq >>> 24) % 256 + 256 * 0))) := rfl
  rw [e]
  simp only [Nat.shiftRight_eq_div_pow]
  omega

theorem decodeTimestamp_encodePayload_unfold (seq t : Nat) :
    decodeTimestamp (encodePayload seq t) =
      t % 256 + 256 * ((t >>> 8) % 256 + 256 * ((t >>> 16) % 256 +
        256 * ((t >>> 24) % 256 + 256 * ((t >>> 32) % 256 +
        256 * ((t >>> 40) % 256 + 256 * ((t >>> 48) % 256 +
        256 * ((t >>> 56) % 256 + 256 * 0))))))) := by
  simp [decodeTimestamp, encodePayload, leBytesToNat]

theorem decodeTimestamp_encodePayload (seq t : Nat) (h : t < 2 ^ 64) :
    decodeTimestamp (encodePayload seq t) = t := by
  rw [decodeTimestamp_encodePayload_unfold]
  simp only [Nat.shiftRight_eq_div_pow]
  omega

/-- Claim C6: the payload encoding is invertible — decoding the 12-byte
little-endian encoding `u32 sequence || u64 timestamp` recovers exactly
the pair used to encode it, for every `seq < 2^32` and `t_us < 2^64`. -/
theorem C6_payload_roundtrip (seq t_us : Nat) (h1 : seq < 2 ^ 32)
    (h2 : t_us < 2 ^ 64) :
    decodeSeq (encodePayload seq t_us) = seq ∧
    decodeTimestamp (encodePayload seq t_us) = t_us ∧
    (encodePayload seq t_us).length = 12 :=
  ⟨decodeSeq_encodePayload seq t_us h1,
   decodeTimestamp_encodePayload seq t_us h2, rfl⟩

/-- Witness for C6 at seq = 7, t_us = 123456789012345. -/
theorem C6_payload_roundtrip_witness :
    decodeSeq (encodePayload 7 123456789012345) = 7 ∧
    decodeTimestamp (encodePayload 7 123456789012345) = 123456789012345 ∧
    (encodePayload 7 123456789012345).length = 12 :=
  C6_payload_roundtrip 7 123456789012345 (by decide) (by decide)

/-- Claim C1: at every scheduler tick where setup-ready is false, or no
connection exists (ghost `connected = false`), or notifications-enabled is
false, the tick is skipped entirely: the state (value buffer and sequence
counter included) is unchanged and no action — in particular no feedback
signal — is issued.  The "no connection" case uses the reachability
invariant that notifications are disabled whenever no link exists. -/
theorem C1_gated_tick_skips (s : BleState) (hs : Reachable s) (t_us : Nat)
    (sendOk : Bool)
    (hgate : s.sensor_ready = false ∨ s.connected = false ∨
      s.notify_enabled = false) :
    sensor_notify_task_tick s t_us sendOk = (s, []) := by
  have hinv := reachable_inv s hs
  have hno : s.sensor_ready = false ∨ s.notify_enabled = false := by
    rcases hgate with h | h | h
    · exact Or.inl h
    · exact Or.inr (hinv.1 h)
    · exact Or.inr h
  unfold sensor_notify_task_tick
  rcases hno with h | h <;> simp [h]

/-- Witness for C1 at the initial state (setup-ready false). -/
theorem C1_gated_tick_skips_witness :
    sensor_notify_task_tick initState 123 true = (initState, []) :=
  C1_gated_tick_skips initState Reachable.init 123 true (Or.inl rfl)

/-- Claim C2 counterexample: in a reachable state with connection id 5, the
disconnect handler leaves the stored connection identifier at 5 — it is not
reset to the "none" sentinel 0xFFFF, contrary to the claim. -/
theorem C2_conn_id_not_cleared_counterexample :
    (gatts_event_handler connectedState 3 (GattsEvent.disconnect 0)
        env0).1.g_conn_id = 5 ∧
    ((gatts_event_handler connectedState 3 (GattsEvent.disconnect 0)
        env0).1.g_conn_id == 0xFFFF) = false :=
  ⟨rfl, rfl⟩

/-- Claim C2 (amended): after every disconnect event, notifications-enabled
is false, advertising is resumed, and — when the LED strip was initialized —
the feedback collaborator is returned to its idle (off) state; the stored
connection identifier, however, is left unchanged (it is not reset to
"none"). -/
theorem C2_disconnect_effects (s : BleState) (gi reason : Nat) (env : Env)
    (hstrip : s.strip = true) :
    (gatts_event_handler s gi (GattsEvent.disconnect reason)
        env).1.notify_enabled = false ∧
    Action.startAdvertising ∈
      (gatts_event_handler s gi (GattsEvent.disconnect reason) env).2 ∧
    Action.ledSet false ∈
      (gatts_event_handler s gi (GattsEvent.disconnect reason) env).2 ∧
    (gatts_event_handler s gi (GattsEvent.disconnect reason)
        env).1.g_conn_id = s.g_conn_id := by
  simp [gatts_event_handler, hstrip]

/-- Witness for C2 (amended) at the initial state. -/
theorem C2_disconnect_effects_witness :
    (gatts_event_handler initState 3 (GattsEvent.disconnect 0)
        env0).1.notify_enabled = false ∧
    Action.startAdvertising ∈
      (gatts_event_handler initState 3 (GattsEvent.disconnect 0) env0).2 ∧
    Action.ledSet false ∈
      (gatts_event_handler initState 3 (GattsEvent.disconnect 0) env0).2 ∧
    (gatts_event_handler initState 3 (GattsEvent.disconnect 0)
        env0).1.g_conn_id = initState.g_conn_id :=
  C2_disconnect_effects initState 3 0 env0 rfl

/-- Claim C3 counterexample: in a state that passes the gating check with
the `uint32_t` sequence counter at its maximum 2^32 - 1, the tick emits a
payload carrying 2^32 - 1 but the counter afterwards is 0, which is not
one greater than the pre-send value — the counter wraps. -/
theorem C3_wrap_counterexample :
    (sensor_notify_task_tick wrapState 0 true).1.seq = 0 ∧
    decodeSeq (sensor_notify_task_tick wrapState 0 true).1.sensor_value =
      2 ^ 32 - 1 ∧
    ((sensor_notify_task_tick wrapState 0 true).1.seq ==
      wrapState.seq + 1) = false :=
  ⟨rfl, rfl, rfl⟩

/-- Claim C3 (amended): for every tick that passes the gating check, the
emitted payload's sequence field equals the pre-send counter value, and
immediately after the tick the counter is one greater modulo 2^32 (the
`uint32_t` counter wraps silently), whether the notification send
succeeded or failed. -/
theorem C3_seq_attempt_policy (s : BleState) (t_us : Nat) (sendOk : Bool)
    (hready : s.sensor_ready = true) (hnotify : s.notify_enabled = true)
    (hif : (s.g_gatts_if == ESP_GATT_IF_NONE) = false)
    (hseq : s.seq < 2 ^ 32) :
    (sensor_notify_task_tick s t_us sendOk).1.seq = (s.seq + 1) % 2 ^ 32 ∧
    (sensor_notify_task_tick s t_us sendOk).1.sensor_value =
      encodePayload s.seq t_us ∧
    decodeSeq (sensor_notify_task_tick s t_us sendOk).1.sensor_value =
      s.seq ∧
    Action.sendNotify s.g_conn_id s.g_char_handle (encodePayload s.seq t_us) ∈
      (sensor_notify_task_tick s t_us sendOk).2 := by
  have hv : (sensor_notify_task_tick s t_us sendOk).1.sensor_value =
      encodePayload s.seq t_us := by
    simp [sensor_notify_task_tick, hready, hnotify, hif]
  refine ⟨?_, hv, ?_, ?_⟩
  · simp [sensor_notify_task_tick, hready, hnotify, hif]
  · rw [hv]
    exact decodeSeq_encodePayload s.seq t_us hseq
  · simp [sensor_notify_task_tick, hready, hnotify, hif]

/-- Witness for C3 (amended) at the ready state, seq = 0, failed send. -/
theorem C3_seq_attempt_policy_witness :
    (sensor_notify_task_tick readyState 77 false).1.seq =
      (readyState.seq + 1) % 2 ^ 32 ∧
    (sensor_notify_task_tick readyState 77 false).1.sensor_value =
      encodePayload readyState.seq 77 ∧
    decodeSeq (sensor_notify_task_tick readyState 77 false).1.sensor_value =
      readyState.seq ∧
    Action.sendNotify readyState.g_conn_id readyState.g_char_handle
        (encodePayload readyState.seq 77) ∈
      (sensor_notify_task_tick readyState 77 false).2 :=
  C3_seq_attempt_policy readyState 77 false rfl rfl rfl (by decide)

/-- Claim C4: a write event targeting the CCCD handle with exactly 2 bytes
sets notifications-enabled to true for little-endian value 0x0001 and to
false for 0x0000, leaves the whole state unchanged for any other 2-byte
value and for any write of a different length, and in every case (any
handle, any value) a success response with no payload is sent exactly when
the write requires a response. -/
theorem C4_cccd_write (s : BleState) (gi connId transId b0 b1 : Nat)
    (v : List Nat) (needRsp : Bool) (env : Env) :
    (b1 <<< 8 ||| b0 = 0x0001 →
      (gatts_event_handler s gi
          (GattsEvent.write s.g_cccd_handle connId transId [b0, b1] needRsp)
          env).1 = { s with notify_enabled := true }) ∧
    (b1 <<< 8 ||| b0 = 0x0000 →
      (gatts_event_handler s gi
          (GattsEvent.write s.g_cccd_handle connId transId [b0, b1] needRsp)
          env).1 = { s with notify_enabled := false }) ∧
    (b1 <<< 8 ||| b0 ≠ 0x0000 → b1 <<< 8 ||| b0 ≠ 0x0001 →
      (gatts_event_handler s gi
          (GattsEvent.write s.g_cccd_handle connId transId [b0, b1] needRsp)
          env).1 = s) ∧
    (v.length ≠ 2 →
      (gatts_event_handler s gi
          (GattsEvent.write s.g_cccd_handle connId transId v needRsp)
          env).1 = s) ∧
    (∀ handle : Nat,
      (gatts_event_handler s gi
          (GattsEvent.write handle connId transId v needRsp) env).2 =
        if needRsp then
          [Action.sendResponse connId transId ESP_GATT_OK none]
        else []) := by
  refine ⟨?_, ?_, ?_, ?_, ?_⟩
  · intro hv
    simp [gatts_event_handler, hv]
  · intro hv
    simp [gatts_event_handler, hv]
  · intro hv0 hv1
    simp [gatts_event_handler, hv0, hv1]
  · intro hlen
    simp [gatts_event_handler, hlen]
  · intro handle
    simp [gatts_event_handler, write_rsp_if_needed]

/-- Witness for C4: enable via [0x01, 0x00], then the response contract on
a response-required write. -/
theorem C4_cccd_write_witness :
    (gatts_event_handler readyState 3
        (GattsEvent.write readyState.g_cccd_handle 0 9 [1, 0] true)
        env0).1 = { readyState with notify_enabled := true } ∧
    (gatts_event_handler readyState 3
        (GattsEvent.write readyState.g_cccd_handle 0 9 [0, 0, 0] true)
        env0).1 = readyState ∧
    (gatts_event_handler readyState 3
        (GattsEvent.write 99 0 9 [1, 0] true) env0).2 =
      [Action.sendResponse 0 9 ESP_GATT_OK none] := by
  refine ⟨(C4_cccd_write readyState 3 0 9 1 0 [1, 0] true env0).1 (by decide),
    (C4_cccd_write readyState 3 0 9 1 0 [0, 0, 0] true env0).2.2.2.1
      (by decide), ?_⟩
  have h5 := (C4_cccd_write readyState 3 0 9 1 0 [1, 0] true env0).2.2.2.2 99
  simpa using h5

/-- Claim C5 counterexample: a descriptor-add completion reporting
non-success status 1 still sets setup-ready, and a service-create
completion reporting status 1 still issues the next setup steps — a
non-success completion status does not halt forward progress. -/
theorem C5_status_counterexample :
    preReadyState.sensor_ready = false ∧
    (gatts_event_handler preReadyState 3 (GattsEvent.addCharDescr 1 44)
        env0).1.sensor_ready = true ∧
    (gatts_event_handler preReadyState 3 (GattsEvent.create 1 40) env0).2 =
      [Action.startService 40, Action.addChar 40] :=
  ⟨rfl, rfl, rfl⟩

/-- Claim C5 (amended): setup completion events are handled without
branching on their reported status — a non-success status is only logged;
the handler stores the returned handle, issues the next setup step, and
the descriptor-add completion sets setup-ready, whatever the status.  A
setup branch halts forward progress only when issuing a synchronous call
itself returns an error (and then simply by issuing nothing further — the
system does not crash). -/
theorem C5_completion_status_ignored (s : BleState) (gi status h : Nat)
    (env : Env) :
    ((gatts_event_handler s gi (GattsEvent.create status h) env).1.g_service_handle = h ∧
     (gatts_event_handler s gi (GattsEvent.create status h) env).2 =
       [Action.startService h, Action.addChar h]) ∧
    ((gatts_event_handler s gi (GattsEvent.addChar status h) env).1.g_char_handle = h ∧
     (gatts_event_handler s gi (GattsEvent.addChar status h) env).2 =
       [Action.addCharDescr s.g_service_handle]) ∧
    ((gatts_event_handler s gi (GattsEvent.addCharDescr status h) env).1.sensor_ready = true ∧
     (gatts_event_handler s gi (GattsEvent.addCharDescr status h) env).2 = []) :=
  ⟨⟨rfl, rfl⟩, ⟨rfl, rfl⟩, ⟨rfl, rfl⟩⟩

/-- Claim C7: `sensor_ready` after any step equals "this step was a
descriptor-add completion, or it was already set": it is set exactly by the
descriptor-add completion, is never unset by any handler or tick (one-way
gate), and therefore transitions false to true at most once along any
trace — namely at the first descriptor-add completion, which does set
it. -/
theorem C7_setup_ready_one_way :
    (∀ (s : BleState) (l : Label),
        (step s l).1.sensor_ready = (isAddCharDescr l || s.sensor_ready)) ∧
    (∀ (s : BleState) (gi status h : Nat) (env : Env),
        (gatts_event_handler s gi (GattsEvent.addCharDescr status h)
          env).1.sensor_ready = true) := by
  constructor
  · intro s l
    cases l with
    | gatts gi e env =>
        cases e with
        | reg status appId =>
            simp only [step, gatts_event_handler, isAddCharDescr]
            split <;> simp
        | create status h => simp [step, gatts_event_handler, isAddCharDescr]
        | addChar status h => simp [step, gatts_event_handler, isAddCharDescr]
        | addCharDescr status h =>
            simp [step, gatts_event_handler, isAddCharDescr]
        | read h c t => simp [step, gatts_event_handler, isAddCharDescr]
        | write h c t v nr =>
            simp only [step, gatts_event_handler, isAddCharDescr]
            split
            · split
              · simp
              · split <;> simp
            · simp
        | connect c => simp [step, gatts_event_handler, isAddCharDescr]
        | disconnect r => simp [step, gatts_event_handler, isAddCharDescr]
        | other => simp [step, gatts_event_handler, isAddCharDescr]
    | gap e =>
        cases e with
        | advDataSetComplete st =>
            simp only [step, gap_event_handler, isAddCharDescr]
            split <;> simp
        | scanRspDataSetComplete st =>
            simp only [step, gap_event_handler, isAddCharDescr]
            split <;> simp
        | advStartComplete st => simp [step, gap_event_handler, isAddCharDescr]
        | other => simp [step, gap_event_handler, isAddCharDescr]
    | tick t ok =>
        simp only [step, sensor_notify_task_tick, isAddCharDescr]
        split <;> simp
  · intro s gi status h env
    rfl

/-- Claim C8: during bring-up each configuration-completion event clears
its own bit of the pending mask (ADV_CONFIG_FLAG resp.
SCAN_RSP_CONFIG_FLAG), and the start-advertising call is issued by these
handlers if and only if the mask has become empty; the registration branch
itself sets the mask and never starts advertising. -/
theorem C8_advertising_gated_on_mask (s : BleState) (status gi appId : Nat)
    (env : Env) :
    ((gap_event_handler s (GapEvent.advDataSetComplete status)).1.adv_config_done =
        s.adv_config_done &&& 0xFE ∧
      (Action.startAdvertising ∈
          (gap_event_handler s (GapEvent.advDataSetComplete status)).2 ↔
        (gap_event_handler s
            (GapEvent.advDataSetComplete status)).1.adv_config_done = 0)) ∧
    ((gap_event_handler s (GapEvent.scanRspDataSetComplete status)).1.adv_config_done =
        s.adv_config_done &&& 0xFD ∧
      (Action.startAdvertising ∈
          (gap_event_handler s (GapEvent.scanRspDataSetComplete status)).2 ↔
        (gap_event_handler s
            (GapEvent.scanRspDataSetComplete status)).1.adv_config_done = 0)) ∧
    ((gatts_event_handler s gi (GattsEvent.reg status appId)
        env).1.adv_config_done = ADV_CONFIG_FLAG ∧
      ((gatts_event_handler s gi (GattsEvent.reg status appId) env).2.contains
          Action.startAdvertising) = false) := by
  refine ⟨⟨?_, ?_⟩, ⟨?_, ?_⟩, ?_, ?_⟩
  · simp only [gap_event_handler]
    split <;> rfl
  · simp only [gap_event_handler]
    split <;> simp_all
  · simp only [gap_event_handler]
    split <;> rfl
  · simp only [gap_event_handler]
    split <;> simp_all
  · simp only [gatts_event_handler]
    split <;> rfl
  · simp only [gatts_event_handler]
    split <;> rfl

/-- Claim C9: the read handler responds to every read request — whatever
attribute handle it targets, the CCCD's included — with success status and
the current contents of the characteristic value buffer, which in every
reachable state holds exactly 12 bytes; the state is unchanged. -/
theorem C9_read_responds_with_buffer (s : BleState) (hs : Reachable s)
    (gi handle connId transId : Nat) (env : Env) :
    gatts_event_handler s gi (GattsEvent.read handle connId transId) env =
      (s, [Action.sendResponse connId transId ESP_GATT_OK
             (some (handle, s.sensor_value))]) ∧
    s.sensor_value.length = 12 :=
  ⟨rfl, (reachable_inv s hs).2.1⟩

/-- Witness for C9 at the initial state, targeting handle 44 (the handle
the CCCD would get), with connection 0 and transaction 7. -/
theorem C9_read_responds_with_buffer_witness :
    gatts_event_handler initState 3 (GattsEvent.read 44 0 7) env0 =
      (initState, [Action.sendResponse 0 7 ESP_GATT_OK
        (some (44, initState.sensor_value))]) ∧
    initState.sensor_value.length = 12 :=
  C9_read_responds_with_buffer initState Reachable.init 3 44 0 7 env0

theorem step_g_gatts_if (s : BleState) (l : Label) :
    (step s l).1.g_gatts_if = (regIfOf l).getD s.g_gatts_if := by
  cases l with
  | gatts gi e env =>
      cases e with
      | reg status appId =>
          simp only [step, gatts_event_handler, regIfOf]
          split <;> rfl
      | create status h => simp [step, gatts_event_handler, regIfOf]
      | addChar status h => simp [step, gatts_event_handler, regIfOf]
      | addCharDescr status h => simp [step, gatts_event_handler, regIfOf]
      | read h c t => simp [step, gatts_event_handler, regIfOf]
      | write h c t v nr =>
          simp only [step, gatts_event_handler, regIfOf]
          split
          · split
            · simp
            · split <;> simp
          · simp
      | connect c => simp [step, gatts_event_handler, regIfOf]
      | disconnect r => simp [step, gatts_event_handler, regIfOf]
      | other => simp [step, gatts_event_handler, regIfOf]
  | gap e =>
      cases e with
      | advDataSetComplete st =>
          simp only [step, gap_event_handler, regIfOf]
          split <;> simp
      | scanRspDataSetComplete st =>
          simp only [step, gap_event_handler, regIfOf]
          split <;> simp
      | advStartComplete st => simp [step, gap_event_handler, regIfOf]
      | other => simp [step, gap_event_handler, regIfOf]
  | tick t ok =>
      simp only [step, sensor_notify_task_tick, regIfOf]
      split <;> simp

/-- Claim C10: `g_gatts_if` is written only by the registration
completion (every other label leaves it unchanged), registration stores
the handler's interface argument, and under well-formed steps (the stack
never delivers a registration carrying ESP_GATT_IF_NONE) it never returns
to ESP_GATT_IF_NONE once set; consequently a tick in a state with a valid
interface is never skipped on account of the connection check alone — a
skip implies setup-ready or notifications-enabled was false. -/
theorem C10_gatts_if_registration_stable :
    (∀ (s : BleState) (l : Label), regIfOf l = none →
        (step s l).1.g_gatts_if = s.g_gatts_if) ∧
    (∀ (s : BleState) (gi status appId : Nat) (env : Env),
        (gatts_event_handler s gi (GattsEvent.reg status appId)
          env).1.g_gatts_if = gi) ∧
    (∀ (s : BleState) (l : Label), WfLabel s l →
        s.g_gatts_if ≠ ESP_GATT_IF_NONE →
        (step s l).1.g_gatts_if ≠ ESP_GATT_IF_NONE) ∧
    (∀ (s : BleState) (t_us : Nat) (sendOk : Bool),
        s.g_gatts_if ≠ ESP_GATT_IF_NONE →
        sensor_notify_task_tick s t_us sendOk = (s, []) →
        s.sensor_ready = false ∨ s.notify_enabled = false) := by
  refine ⟨?_, ?_, ?_, ?_⟩
  · intro s l hl
    rw [step_g_gatts_if, hl, Option.getD_none]
  · intro s gi status appId env
    simp only [gatts_event_handler]
    split <;> rfl
  · intro s l hwf hne
    rw [step_g_gatts_if]
    cases l with
    | gatts gi e env =>
        cases e with
        | reg status appId =>
            simpa only [regIfOf, Option.getD_some] using hwf
        | create status h => simpa only [regIfOf, Option.getD_none] using hne
        | addChar status h => simpa only [regIfOf, Option.getD_none] using hne
        | addCharDescr status h =>
            simpa only [regIfOf, Option.getD_none] using hne
        | read h c t => simpa only [regIfOf, Option.getD_none] using hne
        | write h c t v nr => simpa only [regIfOf, Option.getD_none] using hne
        | connect c => simpa only [regIfOf, Option.getD_none] using hne
        | disconnect r => simpa only [regIfOf, Option.getD_none] using hne
        | other => simpa only [regIfOf, Option.getD_none] using hne
    | gap e => simpa only [regIfOf, Option.getD_none] using hne
    | tick t ok => simpa only [regIfOf, Option.getD_none] using hne
  · intro s t ok hif heq
    by_cases hr : s.sensor_ready = true
    · by_cases hn : s.notify_enabled = true
      · exfalso
        have hc : (s.g_gatts_if == ESP_GATT_IF_NONE) = false := by
          simpa using hif
        have hne2 : sensor_notify_task_tick s t ok ≠ (s, []) := by
          simp [sensor_notify_task_tick, hr, hn, hc]
        exact hne2 heq
      · exact Or.inr (by simpa using hn)
    · exact Or.inl (by simpa using hr)

/-- Witness for C10: a disconnect in the ready state leaves the interface
valid. -/
theorem C10_gatts_if_registration_stable_witness :
    (step readyState
        (Label.gatts 3 (GattsEvent.disconnect 0) env0)).1.g_gatts_if ≠
      ESP_GATT_IF_NONE :=
  C10_gatts_if_registration_stable.2.2.1 readyState
    (Label.gatts 3 (GattsEvent.disconnect 0) env0) trivial (by decide)

end BleSyncSuite
